import Mathlib

/-!
Verification of the GC9A01 display driver (`driver/generic/gc9a01.py`).

The driver is a small MicroPython class built on an ST77xx-style base.  The
parts the specification talks about are pure data and pure computation:

* a table of MADCTL orientation bytes (`_MADCTL_ROTS`),
* the rotation-apply operation (`GC9A01_hw.apply_rotation`), which stores the
  rotation index, recomputes the logical width/height from the native
  resolution, and writes one MADCTL register byte, and
* the fixed initialisation sequence built inside `GC9A01_hw.config_hw` and
  handed to the sequence runner.

We embed these shallowly: the mutable attributes touched by the code
(`res`, `rot`, `width`, `height`) become a `DriverState` record; a register
write becomes a `RegWrite` value; the initialisation sequence becomes the
list of `SeqStep`s that `config_hw` constructs from the current state.
Python integers are `Int` (Python's `%` with a positive divisor agrees with
`Int.emod`), and byte values are `Nat`.
-/

/-- `_SWRESET = const(0x01)` — software reset command. -/
def _SWRESET : Nat := 0x01

/-- `_SLPOUT = const(0x11)` — exit sleep mode command. -/
def _SLPOUT : Nat := 0x11

/-- `_INVON = const(0x21)` — display inversion on command. -/
def _INVON : Nat := 0x21

/-- `_DISPLAY_ON = const(0x29)` — display on command. -/
def _DISPLAY_ON : Nat := 0x29

/-- `_MADCTL = const(0x36)` — memory access control register. -/
def _MADCTL : Nat := 0x36

/-- `_MADCTL_MY = const(0x80)` — page address order bit. -/
def _MADCTL_MY : Nat := 0x80

/-- `_MADCTL_MX = const(0x40)` — column address order bit. -/
def _MADCTL_MX : Nat := 0x40

/-- `_MADCTL_MV = const(0x20)` — page/column order (swap) bit. -/
def _MADCTL_MV : Nat := 0x20

/-- `_MADCTL_ML = const(0x10)` — line address order bit. -/
def _MADCTL_ML : Nat := 0x10

/-- `_MADCTL_BGR = const(0x08)` — colors are BGR (not RGB). -/
def _MADCTL_BGR : Nat := 0x08

/-- `_MADCTL_RTL = const(0x04)` — refresh right to left. -/
def _MADCTL_RTL : Nat := 0x04

/-- The 4-entry rotation lookup tuple `_MADCTL_ROTS` from the source:
portrait, landscape, inverted portrait, inverted landscape. -/
def _MADCTL_ROTS : List Nat :=
  [ _MADCTL_MX,                                -- 0 = portrait
    _MADCTL_MV,                                -- 1 = landscape
    _MADCTL_MY,                                -- 2 = inverted portrait
    _MADCTL_MX ||| _MADCTL_MY ||| _MADCTL_MV ] -- 3 = inverted landscape

/-- The driver attributes read or written by `apply_rotation` and
`config_hw`: native resolution `res`, stored rotation index `rot`, and the
logical `width`/`height`. -/
structure DriverState where
  res : Nat × Nat
  rot : Int
  width : Nat
  height : Nat
deriving Repr, DecidableEq

/-- One call to `write_register(reg, data)`. -/
structure RegWrite where
  reg : Nat
  data : List Nat
deriving Repr, DecidableEq

/-- One step of a `_run_seq` sequence: a command byte, its parameter bytes,
and — when the source tuple has a third element — a post-command delay in
milliseconds. -/
structure SeqStep where
  cmd : Int
  data : List Nat
  delay : Option Nat
deriving Repr, DecidableEq

/-- `GC9A01_hw.__init__` passes `res=(240, 240)` to the base class. -/
def GC9A01_res : Nat × Nat := (240, 240)

/-- `GC9A01_hw.__init__` passes `suppRes=[(240, 240)]` to the base class. -/
def GC9A01_suppRes : List (Nat × Nat) := [(240, 240)]

/-- `GC9A01_hw.__init__` passes `bgr=False` to the base class. -/
def GC9A01_bgr : Bool := false

/-- A GC9A01 driver state as built by `GC9A01_hw.__init__`: native
resolution 240×240, with a given stored rotation index. -/
def GC9A01_state (rot : Int) : DriverState :=
  { res := GC9A01_res, rot := rot, width := GC9A01_res.1, height := GC9A01_res.2 }

/-- `GC9A01_hw.apply_rotation(self, rot)`:

    self.rot = rot
    if (self.rot % 2) == 0:
        self.width, self.height = self.res
    else:
        self.height, self.width = self.res
    self.write_register(_MADCTL, bytes([_MADCTL_BGR | _MADCTL_ROTS[self.rot % 4]]))

Returns the updated state together with the register write performed. -/
def apply_rotation (st : DriverState) (rot : Int) : DriverState × RegWrite :=
  let st' : DriverState :=
    if rot % 2 = 0 then
      { st with rot := rot, width := st.res.1, height := st.res.2 }
    else
      { st with rot := rot, height := st.res.1, width := st.res.2 }
  (st', { reg := _MADCTL,
          data := [_MADCTL_BGR ||| _MADCTL_ROTS.getD ((rot % 4).toNat) 0] })

/-- The sequence that `GC9A01_hw.config_hw` builds and passes to
`self._run_seq`, transcribed step by step from the source.  Note that the
20th step (index 19) uses `self.rot` as its command byte. -/
def config_hw_seq (st : DriverState) : List SeqStep :=
  [ ⟨0xEF, [0x00], none⟩,
    ⟨0xEB, [0x14], none⟩,
    ⟨0xFE, [0x00], none⟩,
    ⟨0xEF, [0x00], none⟩,
    ⟨0xEB, [0x14], none⟩,
    ⟨0x84, [0x40], none⟩,
    ⟨0x85, [0xFF], none⟩,
    ⟨0x86, [0xFF], none⟩,
    ⟨0x87, [0xFF], none⟩,
    ⟨0x88, [0x0A], none⟩,
    ⟨0x89, [0x21], none⟩,
    ⟨0x8A, [0x00], none⟩,
    ⟨0x8B, [0x80], none⟩,
    ⟨0x8C, [0x01], none⟩,
    ⟨0x8D, [0x01], none⟩,
    ⟨0x8E, [0xFF], none⟩,
    ⟨0x8F, [0xFF], none⟩,
    ⟨0xB6, [0x00, 0x00], none⟩,
    ⟨0x36, [0x48], none⟩,
    ⟨st.rot, [0x00], none⟩,
    ⟨0x3A, [0x05], none⟩,
    ⟨0x90, [0x08, 0x08, 0x08, 0x08], none⟩,
    ⟨0xBD, [0x06], none⟩,
    ⟨0xBC, [0x00], none⟩,
    ⟨0xFF, [0x60, 0x01, 0x04], none⟩,
    ⟨0xC3, [0x13], none⟩,
    ⟨0xC4, [0x13], none⟩,
    ⟨0xC9, [0x22], none⟩,
    ⟨0xBE, [0x11], none⟩,
    ⟨0xE1, [0x10, 0x0E], none⟩,
    ⟨0xDF, [0x21, 0x0c, 0x02], none⟩,
    ⟨0xF0, [0x45, 0x09, 0x08, 0x08, 0x26, 0x2A], none⟩,
    ⟨0xF1, [0x43, 0x70, 0x72, 0x36, 0x37, 0x6F], none⟩,
    ⟨0xF2, [0x45, 0x09, 0x08, 0x08, 0x26, 0x2A], none⟩,
    ⟨0xF3, [0x43, 0x70, 0x72, 0x36, 0x37, 0x6F], none⟩,
    ⟨0xED, [0x1B, 0x0B], none⟩,
    ⟨0xAE, [0x77], none⟩,
    ⟨0xCD, [0x63], none⟩,
    ⟨0x70, [0x07, 0x07, 0x04, 0x0E, 0x0F, 0x09, 0x07, 0x08, 0x03], none⟩,
    ⟨0xE8, [0x34], none⟩,
    ⟨0x62, [0x18, 0x0D, 0x71, 0xED, 0x70, 0x70, 0x18, 0x0F, 0x71, 0xEF, 0x70, 0x70], none⟩,
    ⟨0x63, [0x18, 0x11, 0x71, 0xF1, 0x70, 0x70, 0x18, 0x13, 0x71, 0xF3, 0x70, 0x70], none⟩,
    ⟨0x64, [0x28, 0x29, 0xF1, 0x01, 0xF1, 0x00, 0x07], none⟩,
    ⟨0x66, [0x3C, 0x00, 0xCD, 0x67, 0x45, 0x45, 0x10, 0x00, 0x00, 0x00], none⟩,
    ⟨0x67, [0x00, 0x3C, 0x00, 0x00, 0x00, 0x01, 0x54, 0x10, 0x32, 0x98], none⟩,
    ⟨0x74, [0x10, 0x85, 0x80, 0x00, 0x00, 0x4E, 0x00], none⟩,
    ⟨0x98, [0x3e, 0x07], none⟩,
    ⟨0x35, [0x00], none⟩,
    ⟨0x21, [0x00], none⟩,
    ⟨0x11, [0x00], some 20⟩,
    ⟨0x29, [0x00], some 120⟩ ]

/-- The MADCTL formula as the specification states it: the configured
color-order bit (BGR bit when `bgr` is true, nothing when the color order
is RGB) OR-ed with the rotation table entry at index `rot % 4`. -/
def madctl_from_spec (bgr : Bool) (rot : Int) : Nat :=
  (if bgr then _MADCTL_BGR else 0) ||| _MADCTL_ROTS.getD ((rot % 4).toNat) 0

/-- The six commands that take no arguments in the controller command set,
as listed in claim C10. -/
def noArgCmds : List Int := [0xEF, 0xFE, 0x35, 0x21, 0x11, 0x29]

/-- Claim C3: the 4-entry rotation lookup table maps index 0 to the
column-order-reverse bit only (MX, 0x40), index 1 to the page/column-swap
bit only (MV, 0x20), index 2 to the page-order-reverse bit only (MY, 0x80),
and index 3 to MX|MY|MV (0xE0). -/
theorem spec_C3 :
    _MADCTL_ROTS.getD 0 0 = _MADCTL_MX ∧
    _MADCTL_ROTS.getD 1 0 = _MADCTL_MV ∧
    _MADCTL_ROTS.getD 2 0 = _MADCTL_MY ∧
    _MADCTL_ROTS.getD 3 0 = _MADCTL_MX ||| _MADCTL_MY ||| _MADCTL_MV ∧
    _MADCTL_ROTS = [0x40, 0x20, 0x80, 0xE0] := by
  decide

/-- Claim C4: for every rotation index `r` passed to `apply_rotation`, if
`r % 2 = 0` the logical (width, height) equals the native resolution `res`,
otherwise the native values are swapped. -/
theorem spec_C4 (st : DriverState) (r : Int) :
    ((apply_rotation st r).1.width, (apply_rotation st r).1.height) =
      if r % 2 = 0 then st.res else (st.res.2, st.res.1) := by
  by_cases h : r % 2 = 0 <;> simp [apply_rotation, h]

/-- Claim C6: the rotation index is reduced modulo 4: for every integer `r`,
`apply_rotation r` performs the same MADCTL register write and produces the
same logical width and height as `apply_rotation (r % 4)`. -/
theorem spec_C6 (st : DriverState) (r : Int) :
    (apply_rotation st r).2 = (apply_rotation st (r % 4)).2 ∧
    (apply_rotation st r).1.width = (apply_rotation st (r % 4)).1.width ∧
    (apply_rotation st r).1.height = (apply_rotation st (r % 4)).1.height := by
  have h2 : r % 4 % 2 = r % 2 := Int.emod_emod_of_dvd r (by decide)
  have h4 : r % 4 % 4 = r % 4 := Int.emod_emod_of_dvd r (by decide)
  by_cases h : r % 2 = 0 <;> simp [apply_rotation, h2, h4, h]

/-- Claim C7: `apply_rotation` is idempotent for rotation indices 0..3:
calling it twice with the same index yields the same state and the same
register write as calling it once. -/
theorem spec_C7 (st : DriverState) (r : Int) (h0 : 0 ≤ r) (h3 : r ≤ 3) :
    apply_rotation (apply_rotation st r).1 r = apply_rotation st r := by
  by_cases h : r % 2 = 0 <;> simp [apply_rotation, h]

/-- Witness for C7 at rotation index 1 on the GC9A01 state. -/
theorem spec_C7_witness :
    (0 : Int) ≤ 1 ∧ (1 : Int) ≤ 3 ∧
    apply_rotation (apply_rotation (GC9A01_state 0) 1).1 1 =
      apply_rotation (GC9A01_state 0) 1 :=
  ⟨by decide, by decide, spec_C7 (GC9A01_state 0) 1 (by decide) (by decide)⟩

/-- Counterexample to claim C8: `apply_rotation 4` stores rotation index 4,
which is not in 0–3 — the stored index is the raw argument, not reduced. -/
theorem spec_C8_counterexample :
    (apply_rotation (GC9A01_state 0) 4).1.rot = 4 ∧
    ¬ (apply_rotation (GC9A01_state 0) 4).1.rot ≤ 3 := by
  decide

/-- Claim C8 as amended: after `apply_rotation r` the stored rotation index
equals the argument `r` itself (so it lies in 0–3 exactly when the argument
does; reduction modulo 4 happens only at the table lookup). -/
theorem spec_C8 (st : DriverState) (r : Int) :
    (apply_rotation st r).1.rot = r := by
  by_cases h : r % 2 = 0 <;> simp [apply_rotation, h]

/-- Claim C9: on the 240×240 GC9A01 panel, rotation 1 leaves the logical
width and height at 240 each, while the MADCTL byte written for rotation 1
differs from the one written for rotation 0. -/
theorem spec_C9 :
    (apply_rotation (GC9A01_state 0) 1).1.width = 240 ∧
    (apply_rotation (GC9A01_state 0) 1).1.height = 240 ∧
    (apply_rotation (GC9A01_state 0) 1).2.data ≠
      (apply_rotation (GC9A01_state 0) 0).2.data := by
  decide

/-- Counterexample to claim C1: the driver is constructed with `bgr=False`,
yet at rotation 0 the written MADCTL byte is not the spec's
`colorOrderBit | ROTS[0]` (0x40) — its BGR bit (bit 3) is set. -/
theorem spec_C1_counterexample :
    GC9A01_bgr = false ∧
    (apply_rotation (GC9A01_state 0) 0).2.data.getD 0 0 ≠
      madctl_from_spec GC9A01_bgr 0 ∧
    Nat.testBit ((apply_rotation (GC9A01_state 0) 0).2.data.getD 0 0) 3 = true := by
  decide

/-- Claim C1 as amended: `apply_rotation` computes the MADCTL byte as the
BGR bit (0x08) unconditionally OR-ed with `ROTS[r % 4]` — i.e. the formula
the spec gives but with the color-order bit always set, regardless of the
configured `bgr=False`; the BGR bit is set in every written MADCTL byte. -/
theorem spec_C1 (st : DriverState) (r : Int) :
    (apply_rotation st r).2.data = [madctl_from_spec true r] ∧
    Nat.testBit ((apply_rotation st r).2.data.getD 0 0) 3 = true := by
  constructor
  · rfl
  · show Nat.testBit (_MADCTL_BGR ||| _MADCTL_ROTS.getD ((r % 4).toNat) 0) 3 = true
    have hb : Nat.testBit _MADCTL_BGR 3 = true := by decide
    rw [Nat.testBit_lor, hb, Bool.true_or]

/-- Evaluation for claim C2 at the failing input: the initialisation
sequence built by `config_hw` depends on the mutable rotation index — with
`rot = 1` its 20th step sends command 0x01 (SWRESET), with `rot = 0` it does
not, so the sequence is not fixed static data. -/
theorem spec_C2_eval :
    config_hw_seq (GC9A01_state 1) ≠ config_hw_seq (GC9A01_state 0) ∧
    ((config_hw_seq (GC9A01_state 1)).getD 19 ⟨0, [], none⟩).cmd = (_SWRESET : Int) ∧
    ((config_hw_seq (GC9A01_state 0)).getD 19 ⟨0, [], none⟩).cmd ≠ (_SWRESET : Int) := by
  decide

/-- Claim C5: the 51-step initialisation sequence always ends with the
exit-sleep command (0x11) with a 20 ms delay followed, as the final step, by
the display-on command (0x29) with a 120 ms delay, and no other step
specifies a post-delay. -/
theorem spec_C5 (st : DriverState) :
    (config_hw_seq st).length = 51 ∧
    (config_hw_seq st).drop 49 =
      [⟨(_SLPOUT : Int), [0x00], some 20⟩, ⟨(_DISPLAY_ON : Int), [0x00], some 120⟩] ∧
    (((config_hw_seq st).take 49).all fun s => s.delay == none) = true :=
  ⟨rfl, rfl, rfl⟩

/-- Claim C10: every step of the initialisation sequence carries a
non-empty parameter list; every step whose command is one of the no-argument
commands (0xEF, 0xFE, 0x35, 0x21, 0x11, 0x29) carries exactly the single
parameter byte 0x00; and each of those six commands does occur in the
sequence with parameter list [0x00]. -/
theorem spec_C10 (st : DriverState) :
    ((config_hw_seq st).all fun s => !s.data.isEmpty) = true ∧
    ((config_hw_seq st).all fun s =>
      (s.data == [0x00]) || !(noArgCmds.contains s.cmd)) = true ∧
    (∃ s ∈ config_hw_seq st, s.cmd = 0xEF ∧ s.data = [0x00]) ∧
    (∃ s ∈ config_hw_seq st, s.cmd = 0xFE ∧ s.data = [0x00]) ∧
    (∃ s ∈ config_hw_seq st, s.cmd = 0x35 ∧ s.data = [0x00]) ∧
    (∃ s ∈ config_hw_seq st, s.cmd = 0x21 ∧ s.data = [0x00]) ∧
    (∃ s ∈ config_hw_seq st, s.cmd = 0x11 ∧ s.data = [0x00]) ∧
    (∃ s ∈ config_hw_seq st, s.cmd = 0x29 ∧ s.data = [0x00]) := by
  refine ⟨rfl, rfl, ?_, ?_, ?_, ?_, ?_, ?_⟩
  · exact ⟨⟨0xEF, [0x00], none⟩, by simp [config_hw_seq], rfl, rfl⟩
  · exact ⟨⟨0xFE, [0x00], none⟩, by simp [config_hw_seq], rfl, rfl⟩
  · exact ⟨⟨0x35, [0x00], none⟩, by simp [config_hw_seq], rfl, rfl⟩
  · exact ⟨⟨0x21, [0x00], none⟩, by simp [config_hw_seq], rfl, rfl⟩
  · exact ⟨⟨0x11, [0x00], some 20⟩, by simp [config_hw_seq], rfl, rfl⟩
  · exact ⟨⟨0x29, [0x00], some 120⟩, by simp [config_hw_seq], rfl, rfl⟩
